import Mathlib

/-!
Verification development for the SEO analysis module (src/seoUtils.ts).

The TypeScript source is shallowly embedded: each analysis function becomes a
Lean definition over explicit inputs.  The host platform's facilities
(DOMParser, fetch, JSON.parse, Math.random, the URL parser) are not part of
the repository's code; they are modelled as explicit inputs or small helper
functions, documented at each point of use:

* a parsed document (`Doc`) carries the results of the DOM queries the source
  performs (one field per query);
* every `Math.random()` call site reads a named draw from a `Rand` record of
  rational values in [0,1), so the pipeline is a pure function of
  (document, url, draws);
* `JSON.parse` outcomes for ld+json script blocks are carried in the document
  as `Option LdObj` (`none` = the block failed to parse);
* JavaScript numbers are idealised as `ℚ` / `ℤ` / `ℕ`, and `Math.round` /
  `Math.floor` as `Int.floor`-based functions.
-/

namespace SeoUtils

/-- Embedding of JavaScript `Math.round` on the nonnegative values used here:
round half away from zero, i.e. `⌊q + 1/2⌋`. -/
def jsRound (q : ℚ) : ℤ := Int.floor (q + 1 / 2)

/-- Embedding of the JavaScript idiom `x || ''` applied to a nullable string:
`none` (null) becomes `""`; a present string is kept (an empty string maps to
itself, so this agrees with `Option.getD`). -/
def jsOrEmpty (o : Option String) : String := o.getD ""

/-- Embedding of the JavaScript idiom `x || d` on a nullable string with a
non-empty default `d`: both null and the empty string fall through to `d`. -/
def jsStrOr (o : Option String) (d : String) : String :=
  match o with
  | none => d
  | some s => if s = "" then d else s

/-- Embedding of JavaScript string falsiness `!s` for a nullable string:
true exactly when the value is null or the empty string. -/
def jsFalsy (o : Option String) : Bool :=
  match o with
  | none => true
  | some s => s == ""

/-- Does the character list begin with the given segment?  (Char-list version
of `String.prototype.startsWith`.) -/
def segStarts : List Char → List Char → Bool
  | [], _ => true
  | _ :: _, [] => false
  | a :: as, b :: bs => a == b && segStarts as bs

/-- Does the character list contain the given segment anywhere?  (Char-list
version of `String.prototype.includes`; the empty segment is contained in
every list, as in JavaScript.) -/
def segContains (sub : List Char) : List Char → Bool
  | [] => sub.isEmpty
  | c :: cs => segStarts sub (c :: cs) || segContains sub cs

/-- Embedding of `s.startsWith(pre)`. -/
def strStarts (s pre : String) : Bool := segStarts pre.toList s.toList

/-- Embedding of `s.includes(sub)`. -/
def strContains (s sub : String) : Bool := segContains sub.toList s.toList

/-- Character class `\w` of the JavaScript regexps in the source:
ASCII letters, digits and underscore. -/
def isWordChar (c : Char) : Bool :=
  (decide (97 ≤ c.toNat) && decide (c.toNat ≤ 122)) ||
  (decide (65 ≤ c.toNat) && decide (c.toNat ≤ 90)) ||
  (decide (48 ≤ c.toNat) && decide (c.toNat ≤ 57)) ||
  c == '_'

/-- Character class `\s` of the JavaScript regexps in the source: space, tab,
newline, carriage return, vertical tab, form feed, no-break space and the
byte-order mark (the ASCII-and-common cases of the full Unicode class). -/
def isJsSpace (c : Char) : Bool :=
  c == ' ' || c == '\t' || c == '\n' || c == '\r' ||
  c.toNat == 11 || c.toNat == 12 || c.toNat == 160 || c.toNat == 65279

/-- Characters on which `split(/[.!?]+/)` separates the text. -/
def isSentenceEnd (c : Char) : Bool := c == '.' || c == '!' || c == '?'

/-- Accumulator worker for `splitRuns`: `acc` is the reversed current run of
non-separator characters. -/
def splitRunsAux (p : Char → Bool) : List Char → List Char → List (List Char)
  | [], acc => if acc.isEmpty then [] else [acc.reverse]
  | c :: cs, acc =>
    if p c then
      if acc.isEmpty then splitRunsAux p cs []
      else acc.reverse :: splitRunsAux p cs []
    else splitRunsAux p cs (c :: acc)

/-- Split a character list on maximal runs of characters satisfying `p`,
returning the maximal runs of non-`p` characters in order.  This embeds the
`split(/X+/)` calls of the source; the empty fragments JavaScript `split`
produces at the ends are dropped here, which is observationally equal because
every use in the source immediately filters fragments by a positive length
condition. -/
def splitRuns (p : Char → Bool) (l : List Char) : List (List Char) :=
  splitRunsAux p l []

/-- Embedding of `String.prototype.trim` on character lists (whitespace taken
from `isJsSpace`). -/
def jsTrim (l : List Char) : List Char :=
  ((l.dropWhile isJsSpace).reverse.dropWhile isJsSpace).reverse

/-- interface TechnicalIssues (src/seoUtils.ts lines 3-13). -/
structure TechnicalIssues where
  missingTitle : Bool
  missingMetaDescription : Bool
  duplicateH1 : Bool
  imagesMissingAlt : Bool
  titleTooLong : Bool
  metaDescriptionTooLong : Bool
  missingCanonical : Bool
  noIndex : Bool
  noFollow : Bool
deriving DecidableEq

/-- interface HeadingsStructure (lines 15-22). -/
structure HeadingsStructure where
  h1 : List String
  h2 : List String
  h3 : List String
  h4 : List String
  h5 : List String
  h6 : List String
deriving DecidableEq

/-- interface ImagesAnalysis (lines 24-31). -/
structure ImagesAnalysis where
  total : ℕ
  withAlt : ℕ
  withoutAlt : ℕ
  missingAlt : List String
  oversized : List String
  totalSize : ℤ
deriving DecidableEq

/-- interface LinksAnalysis (lines 33-39). -/
structure LinksAnalysis where
  internal : ℕ
  external : ℕ
  broken : ℤ
  nofollow : ℕ
  dofollow : ℕ
deriving DecidableEq

/-- interface KeywordsAnalysis (lines 41-46).  The `density` object is
modelled as an association list in insertion order. -/
structure KeywordsAnalysis where
  density : List (String × ℚ)
  suggestions : List String
  primary : List String
  secondary : List String
deriving DecidableEq

/-- interface ContentAnalysis (lines 48-53). -/
structure ContentAnalysis where
  wordCount : ℕ
  readabilityScore : ℤ
  duplicateContent : Bool
  languageDetected : String
deriving DecidableEq

/-- interface MobileAnalysis (lines 55-59). -/
structure MobileAnalysis where
  responsive : Bool
  viewportMeta : Bool
  touchFriendly : Bool
deriving DecidableEq

/-- interface AccessibilityAnalysis (lines 61-65). -/
structure AccessibilityAnalysis where
  altImages : ℕ
  headingStructure : Bool
  colorContrast : Bool
deriving DecidableEq

/-- interface SecurityAnalysis (lines 67-70). -/
structure SecurityAnalysis where
  https : Bool
  mixedContent : Bool
deriving DecidableEq

/-- interface SocialMediaAnalysis (lines 72-77). -/
structure SocialMediaAnalysis where
  hasOpenGraph : Bool
  hasTwitterCard : Bool
  hasFacebookPixel : Bool
  hasGoogleAnalytics : Bool
deriving DecidableEq

/-- interface DetailedScores (lines 79-85). -/
structure DetailedScores where
  technical : ℤ
  content : ℤ
  performance : ℤ
  accessibility : ℤ
  social : ℤ
deriving DecidableEq

/-- interface OpenGraphData (types/seo.ts). -/
structure OpenGraphData where
  title : String
  description : String
  image : String
  url : String
  ogType : String
  siteName : String
deriving DecidableEq

/-- interface TwitterCardData (types/seo.ts). -/
structure TwitterCardData where
  card : String
  title : String
  description : String
  image : String
  site : String
deriving DecidableEq

/-- interface StructuredDataAnalysis (types/seo.ts). -/
structure StructuredDataAnalysis where
  hasSchema : Bool
  types : List String
  errors : List String
deriving DecidableEq

/-- interface PerformanceMetrics: the `performance` block of the report
(loadTime, pageSize, requests), idealised over `ℚ`/`ℤ`. -/
structure PerformanceMetrics where
  loadTime : ℚ
  pageSize : ℚ
  requests : ℤ
deriving DecidableEq

/-- One `<img>` element, seen through the two attribute reads the source
performs: its `alt` attribute and its `src` attribute (`none` = absent). -/
structure Img where
  alt : Option String
  src : Option String
deriving DecidableEq

/-- One `<a>` element matched by `a[href]`: the `href` attribute value (the
selector guarantees presence, the value may still be empty) and the optional
`rel` attribute. -/
structure Anchor where
  href : String
  rel : Option String
deriving DecidableEq

/-- The outcome of `JSON.parse` on one `application/ld+json` script block:
`none` models a parse failure; a parsed block is reduced to the one member
the source reads, its `@type` string (`attype = none` when the parsed value
carries no such member). -/
structure LdObj where
  attype : Option String
deriving DecidableEq

/-- One record of `Math.random()` draws, one named field per call site in the
source, each a rational in `[0, 1)`.  `imgOversized` is indexed by the image's
position because `analyzeImages` draws once per image. -/
structure Rand where
  imgOversized : ℕ → ℚ
  imgTotalSize : ℚ
  linkBroken : ℚ
  contentDuplicate : ℚ
  mobileTouch : ℚ
  accessContrast : ℚ
  securityMixed : ℚ
  perfScore : ℚ
  perfLoadTime : ℚ
  perfPageSize : ℚ
  perfRequests : ℚ

/-- A fixed all-zero draw record, used for concrete evaluations. -/
def rand0 : Rand :=
  { imgOversized := fun _ => 0
    imgTotalSize := 0
    linkBroken := 0
    contentDuplicate := 0
    mobileTouch := 0
    accessContrast := 0
    securityMixed := 0
    perfScore := 0
    perfLoadTime := 0
    perfPageSize := 0
    perfRequests := 0 }

/-- analyzeImages (lines 259-283).  `withAlt` counts the `img[alt]` query
(attribute presence); the `missingAlt` loop instead tests
`!img.getAttribute('alt')` (JavaScript falsiness: absent OR empty string) and
pushes `src || 'Unknown image'`; `oversized` pushes on a per-image
`Math.random() > 0.8` draw and `totalSize` is `Math.floor(Math.random()*3000)
+ 500`. -/
def analyzeImages (imgs : List Img) (rand : Rand) : ImagesAnalysis :=
  let withAltCount := (imgs.filter (fun i => i.alt.isSome)).length
  let missingAlt := (imgs.filter (fun i => jsFalsy i.alt)).map
    (fun i => jsStrOr i.src "Unknown image")
  let oversized := (imgs.enum.filter
      (fun p => decide (rand.imgOversized p.1 > 4 / 5))).map
    (fun p => jsStrOr p.2.src "Unknown image")
  { total := imgs.length
    withAlt := withAltCount
    withoutAlt := imgs.length - withAltCount
    missingAlt := missingAlt
    oversized := oversized
    totalSize := Int.floor (rand.imgTotalSize * 3000) + 500 }

lemma length_filter_isSome_add_isNone (imgs : List Img) :
    (imgs.filter (fun i => i.alt.isSome)).length +
      (imgs.filter (fun i => i.alt.isNone)).length = imgs.length := by
  induction imgs with
  | nil => simp
  | cons i l ih =>
    rcases h : i.alt with _ | v <;> simp [List.filter, h] <;> omega

/-- C2 (counterexample): an image whose `alt` attribute is present but empty
is counted by `withAlt` (the `img[alt]` query tests presence) yet its `src`
is still pushed onto `missingAlt` (the loop tests JavaScript falsiness of the
attribute value), so `len(missingAlt) = 1 ≠ 0 = withoutAlt` for the
single-image document `<img alt="" src="a.png">`. -/
theorem claim_C2_counterexample :
    (analyzeImages [{ alt := some "", src := some "a.png" }] rand0).missingAlt.length ≠
      (analyzeImages [{ alt := some "", src := some "a.png" }] rand0).withoutAlt := by
  decide

/-- C2 (amended): `withAlt + withoutAlt = total` always holds, and an image
counts as having alt exactly when the attribute is present (even if empty);
but `missingAlt` records the `src || 'Unknown image'` of every image whose
alt attribute is absent OR EMPTY, so `len(missingAlt) = withoutAlt` is
guaranteed only for documents in which no image carries an explicitly empty
alt attribute. -/
theorem claim_C2_images_invariants (imgs : List Img) (rand : Rand)
    (h : ∀ i ∈ imgs, i.alt ≠ some "") :
    (analyzeImages imgs rand).withAlt + (analyzeImages imgs rand).withoutAlt =
      (analyzeImages imgs rand).total ∧
    (analyzeImages imgs rand).missingAlt.length =
      (analyzeImages imgs rand).withoutAlt ∧
    (analyzeImages imgs rand).missingAlt =
      (imgs.filter (fun i => i.alt.isNone)).map
        (fun i => jsStrOr i.src "Unknown image") := by
  have hle : (imgs.filter (fun i => i.alt.isSome)).length ≤ imgs.length :=
    List.length_filter_le _ _
  have hfil : imgs.filter (fun i => jsFalsy i.alt) =
      imgs.filter (fun i => i.alt.isNone) := by
    apply List.filter_congr
    intro i hi
    rcases ha : i.alt with _ | v
    · simp [jsFalsy, ha]
    · have : v ≠ "" := by
        intro hv
        exact h i hi (by rw [ha, hv])
      simp [jsFalsy, ha, this]
  have hsum := length_filter_isSome_add_isNone imgs
  refine ⟨?_, ?_, ?_⟩
  · simp only [analyzeImages]
    omega
  · simp only [analyzeImages, List.length_map, hfil]
    omega
  · simp only [analyzeImages, hfil]

/-- C2 (witness): the invariants of the amended claim evaluated on a concrete
two-image document with no empty alt attribute. -/
theorem claim_C2_witness :
    (∀ i ∈ [Img.mk (some "chart") (some "a.png"), Img.mk none none],
      i.alt ≠ some "") ∧
    ((analyzeImages [Img.mk (some "chart") (some "a.png"), Img.mk none none]
        rand0).withAlt +
      (analyzeImages [Img.mk (some "chart") (some "a.png"), Img.mk none none]
        rand0).withoutAlt =
      (analyzeImages [Img.mk (some "chart") (some "a.png"), Img.mk none none]
        rand0).total ∧
    (analyzeImages [Img.mk (some "chart") (some "a.png"), Img.mk none none]
        rand0).missingAlt.length =
      (analyzeImages [Img.mk (some "chart") (some "a.png"), Img.mk none none]
        rand0).withoutAlt ∧
    (analyzeImages [Img.mk (some "chart") (some "a.png"), Img.mk none none]
        rand0).missingAlt =
      ([Img.mk (some "chart") (some "a.png"), Img.mk none none].filter
          (fun i => i.alt.isNone)).map
        (fun i => jsStrOr i.src "Unknown image")) :=
  ⟨by decide,
    claim_C2_images_invariants
      [Img.mk (some "chart") (some "a.png"), Img.mk none none] rand0
      (by decide)⟩

/-- checkTechnicalIssues (lines 414-435).  The `doc` parameter of the source
is consumed only through the robots meta query, embedded here as
`robotsContent` (the `content` attribute of `meta[name="robots"]`, `none`
when the tag is absent). -/
def checkTechnicalIssues (robotsContent : Option String)
    (title metaDescription : String) (headings : HeadingsStructure)
    (images : ImagesAnalysis) (canonicalUrl : String) : TechnicalIssues :=
  let robotsMeta := jsOrEmpty robotsContent
  { missingTitle := title == ""
    missingMetaDescription := metaDescription == ""
    duplicateH1 := decide (headings.h1.length > 1)
    imagesMissingAlt := decide (images.withoutAlt > 0)
    titleTooLong := decide (title.length > 60)
    metaDescriptionTooLong := decide (metaDescription.length > 160)
    missingCanonical := canonicalUrl == ""
    noIndex := strContains robotsMeta "noindex"
    noFollow := strContains robotsMeta "nofollow" }

/-- C9: the technical-issues checker never reports both `missingTitle` and
`titleTooLong`, and never both `missingMetaDescription` and
`metaDescriptionTooLong`: the missing flag forces the empty string, whose
length 0 cannot exceed the 60- and 160-character thresholds, so the two
deduction amounts per pair never stack (the combined deduction stays within
the larger single deduction: 25 for the title pair, 20 for the description
pair). -/
theorem claim_C9_missing_and_too_long_exclusive (robotsContent : Option String)
    (title metaDescription : String) (headings : HeadingsStructure)
    (images : ImagesAnalysis) (canonicalUrl : String) :
    let issues := checkTechnicalIssues robotsContent title metaDescription
      headings images canonicalUrl
    (¬(issues.missingTitle = true ∧ issues.titleTooLong = true) ∧
      ¬(issues.missingMetaDescription = true ∧
        issues.metaDescriptionTooLong = true)) ∧
    ((if issues.missingTitle then (25 : ℤ) else 0) +
        (if issues.titleTooLong then 10 else 0) ≤ 25 ∧
      (if issues.missingMetaDescription then (20 : ℤ) else 0) +
        (if issues.metaDescriptionTooLong then 10 else 0) ≤ 20) := by
  intro issues
  have htitle : ¬(issues.missingTitle = true ∧ issues.titleTooLong = true) := by
    rintro ⟨h1, h2⟩
    have he : title = "" := by
      have := h1
      simpa [issues, checkTechnicalIssues] using this
    have hl : title.length > 60 := by
      have := h2
      simpa [issues, checkTechnicalIssues] using this
    rw [he] at hl
    simp at hl
  have hdesc : ¬(issues.missingMetaDescription = true ∧
      issues.metaDescriptionTooLong = true) := by
    rintro ⟨h1, h2⟩
    have he : metaDescription = "" := by
      have := h1
      simpa [issues, checkTechnicalIssues] using this
    have hl : metaDescription.length > 160 := by
      have := h2
      simpa [issues, checkTechnicalIssues] using this
    rw [he] at hl
    simp at hl
  refine ⟨⟨htitle, hdesc⟩, ?_, ?_⟩
  · rcases h1 : issues.missingTitle with _ | _ <;>
      rcases h2 : issues.titleTooLong with _ | _ <;> simp_all
  · rcases h1 : issues.missingMetaDescription with _ | _ <;>
      rcases h2 : issues.metaDescriptionTooLong with _ | _ <;> simp_all

/-- Model of the WHATWG URL `hostname` getter on plain lowercase http(s)
URLs, which is all the source relies on (`new URL(baseUrl).hostname`): strip
the `http://` or `https://` scheme prefix and keep the characters up to the
first `/`, `:`, `?` or `#`. -/
def hostnameOf (url : String) : String :=
  let cs := url.toList
  let rest :=
    if segStarts ("https://".toList) cs then cs.drop 8
    else if segStarts ("http://".toList) cs then cs.drop 7
    else []
  String.mk (rest.takeWhile
    (fun c => !(c == '/' || c == ':' || c == '?' || c == '#')))

/-- The external-link test of analyzeLinks (line 296):
`href.startsWith('http') && !href.includes(hostname)`. -/
def isExternalHref (href hostname : String) : Bool :=
  strStarts href "http" && !(strContains href hostname)

/-- The internal-link test of analyzeLinks (line 298), reached only when the
external test fails: `href.startsWith('/') || href.includes(hostname)`. -/
def isInternalHref (href hostname : String) : Bool :=
  !(isExternalHref href hostname) &&
    (strStarts href "/" || strContains href hostname)

/-- The four counters mutated by the analyzeLinks loop (lines 287-307). -/
structure LinkCounts where
  internal : ℕ
  external : ℕ
  nofollow : ℕ
  dofollow : ℕ
deriving DecidableEq

/-- One iteration of the analyzeLinks forEach body (lines 292-307). -/
def linkStep (hostname : String) (acc : LinkCounts) (a : Anchor) : LinkCounts :=
  let href := a.href
  let rel := jsOrEmpty a.rel
  let acc1 :=
    if strStarts href "http" && !(strContains href hostname) then
      { acc with external := acc.external + 1 }
    else if strStarts href "/" || strContains href hostname then
      { acc with internal := acc.internal + 1 }
    else acc
  if strContains rel "nofollow" then { acc1 with nofollow := acc1.nofollow + 1 }
  else { acc1 with dofollow := acc1.dofollow + 1 }

/-- analyzeLinks (lines 285-316).  `broken` is `Math.floor(Math.random()*2)`. -/
def analyzeLinks (anchors : List Anchor) (baseUrl : String) (rand : Rand) :
    LinksAnalysis :=
  let hostname := hostnameOf baseUrl
  let c := anchors.foldl (linkStep hostname) ⟨0, 0, 0, 0⟩
  { internal := c.internal
    external := c.external
    broken := Int.floor (rand.linkBroken * 2)
    nofollow := c.nofollow
    dofollow := c.dofollow }

lemma linkStep_fields (hostname : String) (acc : LinkCounts) (a : Anchor) :
    linkStep hostname acc a =
      { internal := acc.internal +
          (if isInternalHref a.href hostname then 1 else 0)
        external := acc.external +
          (if isExternalHref a.href hostname then 1 else 0)
        nofollow := acc.nofollow +
          (if strContains (jsOrEmpty a.rel) "nofollow" then 1 else 0)
        dofollow := acc.dofollow +
          (if strContains (jsOrEmpty a.rel) "nofollow" then 0 else 1) } := by
  simp only [linkStep, isInternalHref, isExternalHref]
  by_cases hext : (strStarts a.href "http" && !(strContains a.href hostname)) = true <;>
    by_cases hint : (strStarts a.href "/" || strContains a.href hostname) = true <;>
      by_cases hnf : strContains (jsOrEmpty a.rel) "nofollow" = true <;>
        simp [hext, hint, hnf]

lemma foldl_linkStep (hostname : String) (anchors : List Anchor)
    (acc : LinkCounts) :
    anchors.foldl (linkStep hostname) acc =
      { internal := acc.internal +
          anchors.countP (fun a => isInternalHref a.href hostname)
        external := acc.external +
          anchors.countP (fun a => isExternalHref a.href hostname)
        nofollow := acc.nofollow +
          anchors.countP (fun a => strContains (jsOrEmpty a.rel) "nofollow")
        dofollow := acc.dofollow +
          anchors.countP (fun a => !(strContains (jsOrEmpty a.rel) "nofollow")) } := by
  induction anchors generalizing acc with
  | nil => simp
  | cons a as ih =>
    rw [List.foldl_cons, ih, linkStep_fields]
    simp only [List.countP_cons]
    rcases hint : isInternalHref a.href hostname with _ | _ <;>
      rcases hext : isExternalHref a.href hostname with _ | _ <;>
        rcases hnf : strContains (jsOrEmpty a.rel) "nofollow" with _ | _ <;>
          simp [hint, hext, hnf] <;> omega

lemma countP_add_countP_not {α : Type} (p : α → Bool) (l : List α) :
    l.countP p + l.countP (fun a => !(p a)) = l.length := by
  induction l with
  | nil => simp
  | cons a as ih =>
    simp only [List.countP_cons, List.length_cons]
    rcases h : p a with _ | _ <;> simp [h] <;> omega

/-- Classification of an href following the spec's words: external iff the
href is absolute (scheme-qualified) and its host differs from the page's own
host. -/
def specExternalLink (href host : String) : Bool :=
  (strStarts href "http://" || strStarts href "https://") &&
    !(hostnameOf href == host)

/-- Classification of an href following the spec's words: internal iff the
href is root-relative (starts with `/`) or shares the page's host. -/
def specInternalLink (href host : String) : Bool :=
  strStarts href "/" || hostnameOf href == host

/-- C5 (counterexample): for the single link `https://sub.example.com/` on the
page `https://example.com/page`, the href is scheme-qualified and its host
`sub.example.com` differs from the page's host `example.com`, so the claim
classifies it as external and not internal; but the code tests substring
containment of the page hostname anywhere in the href, finds `example.com`
inside `sub.example.com/`, and counts the link as internal instead. -/
theorem claim_C5_counterexample :
    (analyzeLinks [{ href := "https://sub.example.com/", rel := none }]
        "https://example.com/page" rand0).external = 0 ∧
    (analyzeLinks [{ href := "https://sub.example.com/", rel := none }]
        "https://example.com/page" rand0).internal = 1 ∧
    ([Anchor.mk "https://sub.example.com/" none].countP
        (fun a => specExternalLink a.href (hostnameOf "https://example.com/page"))) = 1 ∧
    ([Anchor.mk "https://sub.example.com/" none].countP
        (fun a => specInternalLink a.href (hostnameOf "https://example.com/page"))) = 0 := by
  decide

/-- C5 (amended): the code classifies a link as external exactly when the
href starts with the four characters `http` and does NOT contain the page's
hostname as a substring anywhere, and as internal exactly when it is not
external and the href starts with `/` or contains the page's hostname as a
substring; independently `nofollow`/`dofollow` partition all `a[href]`
anchors by the `rel` attribute containing `nofollow`. -/
theorem claim_C5_link_classification (anchors : List Anchor) (baseUrl : String)
    (rand : Rand) :
    (analyzeLinks anchors baseUrl rand).external =
      anchors.countP (fun a => isExternalHref a.href (hostnameOf baseUrl)) ∧
    (analyzeLinks anchors baseUrl rand).internal =
      anchors.countP (fun a => isInternalHref a.href (hostnameOf baseUrl)) ∧
    (analyzeLinks anchors baseUrl rand).nofollow =
      anchors.countP (fun a => strContains (jsOrEmpty a.rel) "nofollow") ∧
    (analyzeLinks anchors baseUrl rand).dofollow =
      anchors.countP (fun a => !(strContains (jsOrEmpty a.rel) "nofollow")) ∧
    (analyzeLinks anchors baseUrl rand).nofollow +
      (analyzeLinks anchors baseUrl rand).dofollow = anchors.length := by
  have hfold := foldl_linkStep (hostnameOf baseUrl) anchors ⟨0, 0, 0, 0⟩
  have hsplit := countP_add_countP_not
    (fun a : Anchor => strContains (jsOrEmpty a.rel) "nofollow") anchors
  refine ⟨?_, ?_, ?_, ?_, ?_⟩ <;>
    simp [analyzeLinks, hfold, hsplit]

/-- One iteration of the extractStructuredData forEach body (lines 230-239):
the try/catch around `JSON.parse` is carried by the `Option LdObj` parse
outcome, and `if (data['@type'])` is JavaScript truthiness, false for an
empty string. -/
def ldStep (acc : List String × List String) (script : Option LdObj) :
    List String × List String :=
  match script with
  | some data =>
    match data.attype with
    | some t => if t = "" then acc else (acc.1 ++ [t], acc.2)
    | none => acc
  | none => (acc.1, acc.2 ++ ["Invalid JSON-LD structure"])

/-- extractStructuredData (lines 225-246). -/
def extractStructuredData (scripts : List (Option LdObj)) :
    StructuredDataAnalysis :=
  let r := scripts.foldl ldStep ([], [])
  { hasSchema := decide (scripts.length > 0)
    types := r.1
    errors := r.2 }

/-- The `@type` string a script block contributes to `types`, if any: the
block must parse and carry a truthy (non-empty) `@type`. -/
def ldTypeOf (script : Option LdObj) : Option String :=
  match script with
  | some data =>
    match data.attype with
    | some t => if t = "" then none else some t
    | none => none
  | none => none

lemma foldl_ldStep (scripts : List (Option LdObj))
    (acc : List String × List String) :
    scripts.foldl ldStep acc =
      (acc.1 ++ scripts.filterMap ldTypeOf,
        acc.2 ++ List.replicate (scripts.countP (fun s => s.isNone))
          "Invalid JSON-LD structure") := by
  induction scripts generalizing acc with
  | nil => simp
  | cons s ss ih =>
    rw [List.foldl_cons, ih]
    rcases s with _ | data
    · simp [ldStep, ldTypeOf, List.countP_cons, List.replicate_succ]
    · rcases hat : data.attype with _ | t
      · simp [ldStep, ldTypeOf, hat, List.countP_cons]
      · by_cases ht : t = "" <;>
          simp [ldStep, ldTypeOf, hat, ht, List.countP_cons]

/-- C8 (counterexample): the block `{"@type": ""}` parses successfully and
carries an `@type` member, yet the code appends nothing to `types` because
`if (data['@type'])` tests JavaScript truthiness and the empty string is
falsy; `hasSchema` is still true and no error is recorded. -/
theorem claim_C8_counterexample :
    (extractStructuredData [some { attype := some "" }]).types = [] ∧
    (extractStructuredData [some { attype := some "" }]).hasSchema = true ∧
    (extractStructuredData [some { attype := some "" }]).errors = [] := by
  decide

/-- C8 (amended): each `application/ld+json` block is processed
independently: a parsed block contributes its `@type` to `types` exactly when
that `@type` is present AND non-empty (truthy); every block that fails to
parse contributes exactly the fixed literal `Invalid JSON-LD structure` to
`errors` without aborting the loop; and `hasSchema` is true exactly when at
least one such script block exists, independent of parse success. -/
theorem claim_C8_structured_data (scripts : List (Option LdObj)) :
    (extractStructuredData scripts).types = scripts.filterMap ldTypeOf ∧
    (extractStructuredData scripts).errors =
      List.replicate (scripts.countP (fun s => s.isNone))
        "Invalid JSON-LD structure" ∧
    ((extractStructuredData scripts).hasSchema = true ↔ scripts ≠ []) := by
  have h := foldl_ldStep scripts ([], [])
  refine ⟨?_, ?_, ?_⟩
  · simp [extractStructuredData, h]
  · simp [extractStructuredData, h]
  · simp only [extractStructuredData, decide_eq_true_eq]
    constructor
    · intro hlen
      intro hnil
      rw [hnil] at hlen
      simp at hlen
    · intro hne
      exact List.length_pos.mpr hne

/-- Pairwise-adjacent heading check: given the previous heading level, each
following level may exceed its predecessor by at most one. -/
def hierOk : ℕ → List ℕ → Bool
  | _, [] => true
  | last, l :: ls => decide (l ≤ last + 1) && hierOk l ls

/-- The heading-hierarchy predicate following the spec's words: walk the
document-order heading sequence and require that no heading's level exceed
its predecessor's level by more than one; the first heading has no
predecessor and is unconstrained. -/
def specHeadingOk : List ℕ → Bool
  | [] => true
  | l :: ls => hierOk l ls

/-- analyzeAccessibility (lines 377-396): the heading walk starts from
`lastLevel = 0`, `altImages` copies the Images facet, and `colorContrast` is
a `Math.random() > 0.15` draw. -/
def analyzeAccessibility (headingLevels : List ℕ) (images : ImagesAnalysis)
    (rand : Rand) : AccessibilityAnalysis :=
  let r := headingLevels.foldl
    (fun (acc : Bool × ℕ) level =>
      (acc.1 && !(decide (level > acc.2 + 1)), level)) (true, 0)
  { altImages := images.withAlt
    headingStructure := r.1
    colorContrast := decide (rand.accessContrast > 3 / 20) }

lemma foldl_hier (levels : List ℕ) (b : Bool) (last : ℕ) :
    (levels.foldl
      (fun (acc : Bool × ℕ) level =>
        (acc.1 && !(decide (level > acc.2 + 1)), level)) (b, last)).1 =
      (b && hierOk last levels) := by
  induction levels generalizing b last with
  | nil => simp [hierOk]
  | cons l ls ih =>
    rw [List.foldl_cons]
    have hd : (!(decide (l > last + 1))) = decide (l ≤ last + 1) := by
      rw [← decide_not, decide_eq_decide]
      omega
    simp only [ih, hierOk, hd, Bool.and_assoc]

lemma hierOk_iff_chain (last : ℕ) (ls : List ℕ) :
    hierOk last ls = true ↔ List.Chain (fun a b => b ≤ a + 1) last ls := by
  induction ls generalizing last with
  | nil => simp [hierOk]
  | cons l ls ih =>
    simp [hierOk, List.chain_cons, ih]

/-- C6 (counterexample): a document whose only heading is an `<h2>` has no
heading exceeding its predecessor by more than one (there is no predecessor),
so the claim predicts `headingStructure = true`; but the code walks the
sequence starting from a virtual previous level of 0, finds `2 > 0 + 1`, and
flags the document. -/
theorem claim_C6_counterexample :
    (analyzeAccessibility [2] (analyzeImages [] rand0) rand0).headingStructure =
      false ∧
    List.Chain' (fun a b => b ≤ a + 1) ([2] : List ℕ) := by
  refine ⟨by decide, List.chain'_singleton 2⟩

/-- C6 (amended): the heading walk carries a virtual previous level of 0, so
`headingStructure` is true iff in the sequence `0 :: levels` (document-order
heading levels prefixed with 0) no element exceeds its predecessor by more
than one — in particular a document whose first heading is deeper than h1 IS
flagged, and otherwise the check is the claimed monotonic-depth check over
the single document-order sequence. -/
theorem claim_C6_heading_structure (headingLevels : List ℕ)
    (images : ImagesAnalysis) (rand : Rand) :
    (analyzeAccessibility headingLevels images rand).headingStructure =
      hierOk 0 headingLevels ∧
    (hierOk 0 headingLevels = true ↔
      List.Chain' (fun a b => b ≤ a + 1) (0 :: headingLevels)) := by
  constructor
  · simp [analyzeAccessibility, foldl_hier]
  · exact hierOk_iff_chain 0 headingLevels

/-- The token pipeline of analyzeKeywords (lines 320-324): take the first
5000 characters (`substring(0, 5000)`), lower-case, delete every character
outside `\w` and `\s` (`replace(/[^\w\s]/g, '')`), split on whitespace runs
(`split(/\s+/)`) and keep the tokens longer than 3 characters. -/
def keywordTokens (text : String) : List String :=
  let limited := text.toList.take 5000
  let lowered := limited.map Char.toLower
  let stripped := lowered.filter (fun c => isWordChar c || isJsSpace c)
  ((splitRuns isJsSpace stripped).map (fun w => String.mk w)).filter
    (fun w => decide (w.length > 3))

/-- The frequency object of analyzeKeywords (lines 326-329), modelled as an
association list in property-creation (insertion) order:
`wordCount[word] = (wordCount[word] || 0) + 1`.  Enumeration of the object's
entries does NOT follow this order for integer-like keys — see `jsEntries`. -/
def bumpCount : List (String × ℕ) → String → List (String × ℕ)
  | [], w => [(w, 1)]
  | (k, c) :: rest, w =>
    if k = w then (k, c + 1) :: rest else (k, c) :: bumpCount rest w

/-- Numeric value of a digit-only property key. -/
def keyNat (s : String) : ℕ :=
  s.toList.foldl (fun n c => n * 10 + (c.toNat - 48)) 0

/-- Is the character an ASCII digit? -/
def isDigitChar (c : Char) : Bool :=
  decide (48 ≤ c.toNat) && decide (c.toNat ≤ 57)

/-- Is the string an array-index property key per ECMAScript: a canonical
decimal integer string (digits only, no leading zero except `0` itself)
whose numeric value is below 2^32 - 1?  Such keys are enumerated before all
other own keys, in ascending numeric order. -/
def isArrayIndexKey (s : String) : Bool :=
  match s.toList with
  | [] => false
  | c :: cs =>
    (c :: cs).all isDigitChar &&
      (if c = '0' then cs.isEmpty else true) &&
      decide (keyNat s < 4294967295)

/-- Insertion into a list sorted ascending by the numeric value of the key. -/
def insertIdx {α : Type} (x : String × α) :
    List (String × α) → List (String × α)
  | [] => [x]
  | y :: ys =>
    if keyNat x.1 ≤ keyNat y.1 then x :: y :: ys else y :: insertIdx x ys

/-- Ascending insertion sort by the numeric value of the key. -/
def sortIdx {α : Type} : List (String × α) → List (String × α)
  | [] => []
  | x :: xs => insertIdx x (sortIdx xs)

/-- Embedding of `Object.entries` applied to an object whose entries were
created in the order of the association list: per ECMAScript's
OrdinaryOwnPropertyKeys, array-index keys come first in ascending numeric
order, followed by the remaining string keys in property-creation order. -/
def jsEntries {α : Type} (l : List (String × α)) : List (String × α) :=
  sortIdx (l.filter (fun p => isArrayIndexKey p.1)) ++
    l.filter (fun p => !(isArrayIndexKey p.1))

/-- Stable insertion of a word/density pair into a density-descending list:
the inserted element goes before every already-present element of equal or
smaller density, because it precedes them in the original order. -/
def insertDesc (x : String × ℚ) : List (String × ℚ) → List (String × ℚ)
  | [] => [x]
  | y :: ys => if x.2 ≥ y.2 then x :: y :: ys else y :: insertDesc x ys

/-- Embedding of the stable JavaScript `sort(([,a],[,b]) => b - a)` of lines
338-339 as a stable insertion sort by descending density. -/
def sortDesc : List (String × ℚ) → List (String × ℚ)
  | [] => []
  | x :: xs => insertDesc x (sortDesc xs)

/-- analyzeKeywords (lines 318-349).  The `density` object is built (lines
334-336) by iterating `Object.entries(wordCount)`, so its entries are created
in `jsEntries wordCount` order; the sort (line 338) then iterates
`Object.entries(density)`, embedded as a second `jsEntries` (proved to be the
identity here, since `density`'s creation order already satisfies the
numeric-keys-first rule). -/
def analyzeKeywords (text : String) : KeywordsAnalysis :=
  let words := keywordTokens text
  let wordCount := words.foldl bumpCount []
  let totalWords := words.length
  let density := (jsEntries wordCount).map
    (fun p => (p.1, (p.2 : ℚ) / (totalWords : ℚ) * 100))
  let topKeywords := ((sortDesc (jsEntries density)).take 15).map
    (fun p => p.1)
  { density := density
    suggestions := topKeywords
    primary := topKeywords.take 3
    secondary := (topKeywords.drop 3).take 7 }

/-- The distinct words of a list in first-seen order.  Marked irreducible
(it is well-founded, so it does not reduce definitionally anyway); all
reasoning goes through its equation lemmas. -/
@[irreducible] def firstSeen : List String → List String
  | [] => []
  | w :: ws => w :: firstSeen (ws.filter (fun x => decide (x ≠ w)))
termination_by l => l.length
decreasing_by
  simp only [List.length_cons]
  exact Nat.lt_succ_of_le (List.length_filter_le _ _)

/-- The reference keyword pipeline: each distinct token mapped to its
frequency (`List.count`) as a percentage of the total qualifying token count,
the map enumerated in JavaScript object-entries order (array-index keys
ascending first, then first-seen order), stably sorted by descending
percentage; top 15 as `suggestions`, its first 3 as `primary`, items 4-10 as
`secondary`.  This follows the spec's words amended in one point: ties are
kept in entries-enumeration order, not plain first-seen order. -/
def keywordsRefEntries (text : String) : KeywordsAnalysis :=
  let words := keywordTokens text
  let total := words.length
  let entries := jsEntries ((firstSeen words).map
    (fun w => (w, words.count w)))
  let density := entries.map
    (fun p => (p.1, (p.2 : ℚ) / (total : ℚ) * 100))
  let sorted := sortDesc density
  let sugg := (sorted.take 15).map (fun p => p.1)
  { density := density
    suggestions := sugg
    primary := sugg.take 3
    secondary := (sugg.drop 3).take 7 }

lemma mem_firstSeen (ws : List String) (w : String) :
    w ∈ firstSeen ws ↔ w ∈ ws := by
  induction ws using firstSeen.induct with
  | case1 => simp [firstSeen]
  | case2 x xs ih =>
    rw [firstSeen]
    simp only [List.mem_cons, ih, List.mem_filter, decide_eq_true_eq]
    constructor
    · rintro (h | ⟨h1, _⟩)
      · exact Or.inl h
      · exact Or.inr h1
    · rintro (h | h)
      · exact Or.inl h
      · by_cases hx : w = x
        · exact Or.inl hx
        · exact Or.inr ⟨h, hx⟩

lemma nodup_firstSeen (ws : List String) : (firstSeen ws).Nodup := by
  induction ws using firstSeen.induct with
  | case1 => simp [firstSeen]
  | case2 x xs ih =>
    rw [firstSeen]
    refine List.Nodup.cons ?_ ih
    intro hx
    have := (mem_firstSeen _ x).mp hx
    simp at this

lemma firstSeen_append_single (ws : List String) (w : String) :
    firstSeen (ws ++ [w]) =
      if w ∈ ws then firstSeen ws else firstSeen ws ++ [w] := by
  induction ws using firstSeen.induct with
  | case1 => simp [firstSeen]
  | case2 x xs ih =>
    by_cases hw : w = x
    · subst hw
      rw [List.cons_append, firstSeen, firstSeen]
      have : (xs ++ [w]).filter (fun y => decide (y ≠ w)) =
          xs.filter (fun y => decide (y ≠ w)) := by
        simp [List.filter_append]
      simp [this]
    · rw [List.cons_append, firstSeen, firstSeen]
      have hfil : (xs ++ [w]).filter (fun y => decide (y ≠ x)) =
          xs.filter (fun y => decide (y ≠ x)) ++ [w] := by
        simp [List.filter_append, hw]
      rw [hfil, ih]
      have hmem : w ∈ xs.filter (fun y => decide (y ≠ x)) ↔ w ∈ xs := by
        simp [List.mem_filter, hw]
      by_cases hx : w ∈ xs
      · simp [hmem, hx, hw]
      · simp [hmem, hx, hw]

lemma bump_notmem (l : List (String × ℕ)) (w : String)
    (h : ∀ p ∈ l, p.1 ≠ w) : bumpCount l w = l ++ [(w, 1)] := by
  induction l with
  | nil => rfl
  | cons p rest ih =>
    rcases p with ⟨k, c⟩
    have hk : k ≠ w := h (k, c) (List.mem_cons_self _ _)
    rw [bumpCount]
    simp only [hk, if_false]
    rw [ih (fun q hq => h q (List.mem_cons_of_mem _ hq))]
    rfl

lemma bump_map_mem (ks : List String) (f : String → ℕ) (w : String)
    (hnd : ks.Nodup) (hin : w ∈ ks) :
    bumpCount (ks.map (fun k => (k, f k))) w =
      ks.map (fun k => (k, if k = w then f k + 1 else f k)) := by
  induction ks with
  | nil => simp at hin
  | cons k ks ih =>
    rw [List.map_cons, bumpCount]
    by_cases hk : k = w
    · subst hk
      have hmap : ks.map (fun k' => (k', f k')) =
          ks.map (fun k' => (k', if k' = k then f k' + 1 else f k')) := by
        apply List.map_congr_left
        intro a ha
        have : a ≠ k := by
          intro hak
          subst hak
          exact (List.nodup_cons.mp hnd).1 ha
        simp [this]
      simp [← hmap]
    · have hin' : w ∈ ks := by
        rcases List.mem_cons.mp hin with h | h
        · exact absurd h.symm hk
        · exact h
      rw [ih (List.nodup_cons.mp hnd).2 hin', List.map_cons]
      simp [hk]

lemma foldl_bumpCount (ws : List String) :
    ws.foldl bumpCount [] = (firstSeen ws).map (fun w => (w, ws.count w)) := by
  induction ws using List.reverseRecOn with
  | nil => simp [firstSeen]
  | append_singleton ws w ih =>
    rw [List.foldl_append, List.foldl_cons, List.foldl_nil, ih,
      firstSeen_append_single]
    by_cases hw : w ∈ ws
    · rw [if_pos hw]
      rw [bump_map_mem (firstSeen ws) (fun k => ws.count k) w
        (nodup_firstSeen ws) ((mem_firstSeen ws w).mpr hw)]
      apply List.map_congr_left
      intro a _
      by_cases ha : a = w
      · subst ha
        simp [List.count_append]
      · simp [List.count_append, ha, Ne.symm ha]
    · rw [if_neg hw]
      have hkeys : ∀ p ∈ (firstSeen ws).map (fun k => (k, ws.count k)),
          p.1 ≠ w := by
        intro p hp
        rcases List.mem_map.mp hp with ⟨k, hk, rfl⟩
        intro hkw
        exact hw ((mem_firstSeen ws w).mp (hkw ▸ hk))
      rw [bump_notmem _ _ hkeys, List.map_append]
      congr 1
      · apply List.map_congr_left
        intro a ha
        have haw : a ≠ w := by
          intro h
          exact hw ((mem_firstSeen ws w).mp (h ▸ ha))
        simp [List.count_append, haw, Ne.symm haw]
      · simp [List.count_append, List.count_eq_zero.mpr hw]

lemma mem_insertDesc {x y : String × ℚ} {l : List (String × ℚ)}
    (h : y ∈ insertDesc x l) : y = x ∨ y ∈ l := by
  induction l with
  | nil => simpa [insertDesc] using h
  | cons z zs ih =>
    rw [insertDesc] at h
    by_cases hc : x.2 ≥ z.2
    · rw [if_pos hc] at h
      rcases List.mem_cons.mp h with h | h
      · exact Or.inl h
      · exact Or.inr h
    · rw [if_neg hc] at h
      rcases List.mem_cons.mp h with h | h
      · exact Or.inr (h ▸ List.mem_cons_self _ _)
      · rcases ih h with h | h
        · exact Or.inl h
        · exact Or.inr (List.mem_cons_of_mem _ h)

lemma pairwise_insertDesc (x : String × ℚ) (l : List (String × ℚ))
    (h : l.Pairwise (fun a b => b.2 ≤ a.2)) :
    (insertDesc x l).Pairwise (fun a b => b.2 ≤ a.2) := by
  induction l with
  | nil => simp [insertDesc]
  | cons y ys ih =>
    rw [insertDesc]
    rcases List.pairwise_cons.mp h with ⟨hy, hys⟩
    by_cases hc : x.2 ≥ y.2
    · rw [if_pos hc]
      refine List.Pairwise.cons ?_ h
      intro z hz
      rcases List.mem_cons.mp hz with hz | hz
      · exact hz ▸ hc
      · exact le_trans (hy z hz) hc
    · rw [if_neg hc]
      refine List.Pairwise.cons ?_ (ih hys)
      intro z hz
      rcases mem_insertDesc hz with hz | hz
      · exact hz ▸ le_of_lt (lt_of_not_ge hc)
      · exact hy z hz

lemma sortDesc_pairwise (l : List (String × ℚ)) :
    (sortDesc l).Pairwise (fun a b => b.2 ≤ a.2) := by
  induction l with
  | nil => simp [sortDesc]
  | cons x xs ih => exact pairwise_insertDesc x (sortDesc xs) ih

lemma filter_insertDesc (x : String × ℚ) (l : List (String × ℚ)) (q : ℚ) :
    (insertDesc x l).filter (fun p => decide (p.2 = q)) =
      if x.2 = q then x :: l.filter (fun p => decide (p.2 = q))
      else l.filter (fun p => decide (p.2 = q)) := by
  induction l with
  | nil =>
    by_cases hx : x.2 = q <;> simp [insertDesc, hx]
  | cons y ys ih =>
    rw [insertDesc]
    by_cases hc : x.2 ≥ y.2
    · rw [if_pos hc]
      by_cases hx : x.2 = q <;> simp [List.filter_cons, hx]
    · rw [if_neg hc]
      have hlt : x.2 < y.2 := lt_of_not_ge hc
      by_cases hx : x.2 = q
      · have hy : ¬(y.2 = q) := by
          rw [← hx]
          exact ne_of_gt hlt
        simp [List.filter_cons, hx, hy, ih]
      · by_cases hy : y.2 = q <;> simp [List.filter_cons, hx, hy, ih]

lemma sortDesc_filter (l : List (String × ℚ)) (q : ℚ) :
    (sortDesc l).filter (fun p => decide (p.2 = q)) =
      l.filter (fun p => decide (p.2 = q)) := by
  induction l with
  | nil => simp [sortDesc]
  | cons x xs ih =>
    rw [sortDesc, filter_insertDesc]
    by_cases hx : x.2 = q <;> simp [List.filter_cons, hx, ih]

lemma insertDesc_perm (x : String × ℚ) (l : List (String × ℚ)) :
    (insertDesc x l).Perm (x :: l) := by
  induction l with
  | nil => simp [insertDesc]
  | cons y ys ih =>
    rw [insertDesc]
    by_cases hc : x.2 ≥ y.2
    · rw [if_pos hc]
    · rw [if_neg hc]
      exact (ih.cons y).trans (List.Perm.swap x y ys)

lemma sortDesc_perm (l : List (String × ℚ)) : (sortDesc l).Perm l := by
  induction l with
  | nil => simp [sortDesc]
  | cons x xs ih =>
    rw [sortDesc]
    exact (insertDesc_perm x (sortDesc xs)).trans (ih.cons x)

lemma insertIdx_perm {α : Type} (x : String × α) (l : List (String × α)) :
    (insertIdx x l).Perm (x :: l) := by
  induction l with
  | nil => simp [insertIdx]
  | cons y ys ih =>
    rw [insertIdx]
    by_cases hc : keyNat x.1 ≤ keyNat y.1
    · rw [if_pos hc]
    · rw [if_neg hc]
      exact (ih.cons y).trans (List.Perm.swap x y ys)

lemma sortIdx_perm {α : Type} (l : List (String × α)) :
    (sortIdx l).Perm l := by
  induction l with
  | nil => simp [sortIdx]
  | cons x xs ih =>
    rw [sortIdx]
    exact (insertIdx_perm x (sortIdx xs)).trans (ih.cons x)

lemma pairwise_insertIdx {α : Type} (x : String × α) (l : List (String × α))
    (h : l.Pairwise (fun a b => keyNat a.1 ≤ keyNat b.1)) :
    (insertIdx x l).Pairwise (fun a b => keyNat a.1 ≤ keyNat b.1) := by
  induction l with
  | nil => simp [insertIdx]
  | cons y ys ih =>
    rw [insertIdx]
    rcases List.pairwise_cons.mp h with ⟨hy, hys⟩
    by_cases hc : keyNat x.1 ≤ keyNat y.1
    · rw [if_pos hc]
      refine List.Pairwise.cons ?_ h
      intro z hz
      rcases List.mem_cons.mp hz with hz | hz
      · exact hz ▸ hc
      · exact le_trans hc (hy z hz)
    · rw [if_neg hc]
      refine List.Pairwise.cons ?_ (ih hys)
      intro z hz
      rcases List.mem_cons.mp ((insertIdx_perm x ys).mem_iff.mp hz) with hz' | hz'
      · exact hz' ▸ le_of_lt (lt_of_not_ge hc)
      · exact hy z hz'

lemma sortIdx_pairwise {α : Type} (l : List (String × α)) :
    (sortIdx l).Pairwise (fun a b => keyNat a.1 ≤ keyNat b.1) := by
  induction l with
  | nil => simp [sortIdx]
  | cons x xs ih => exact pairwise_insertIdx x (sortIdx xs) ih

lemma sortIdx_of_pairwise {α : Type} (l : List (String × α))
    (h : l.Pairwise (fun a b => keyNat a.1 ≤ keyNat b.1)) : sortIdx l = l := by
  induction l with
  | nil => rfl
  | cons x xs ih =>
    rcases List.pairwise_cons.mp h with ⟨hx, hxs⟩
    rw [sortIdx, ih hxs]
    cases xs with
    | nil => rfl
    | cons y ys =>
      rw [insertIdx, if_pos (hx y (List.mem_cons_self _ _))]

lemma filter_idx_map {α β : Type} (f : String → α → β)
    (l : List (String × α)) :
    (l.map (fun q => (q.1, f q.1 q.2))).filter
        (fun q => isArrayIndexKey q.1) =
      (l.filter (fun q => isArrayIndexKey q.1)).map
        (fun q => (q.1, f q.1 q.2)) := by
  induction l with
  | nil => rfl
  | cons a as ih =>
    by_cases hp : isArrayIndexKey a.1 = true <;>
      simp [List.filter_cons, hp, ih]

lemma filter_notidx_map {α β : Type} (f : String → α → β)
    (l : List (String × α)) :
    (l.map (fun q => (q.1, f q.1 q.2))).filter
        (fun q => !(isArrayIndexKey q.1)) =
      (l.filter (fun q => !(isArrayIndexKey q.1))).map
        (fun q => (q.1, f q.1 q.2)) := by
  induction l with
  | nil => rfl
  | cons a as ih =>
    by_cases hp : isArrayIndexKey a.1 = true <;>
      simp [List.filter_cons, hp, ih]

lemma jsEntries_entries_map {α β : Type} (l : List (String × α))
    (f : String → α → β) :
    jsEntries ((jsEntries l).map (fun q => (q.1, f q.1 q.2))) =
      (jsEntries l).map (fun q => (q.1, f q.1 q.2)) := by
  unfold jsEntries
  rw [filter_idx_map, filter_notidx_map, List.filter_append,
    List.filter_append]
  have h1 : (sortIdx (l.filter (fun p => isArrayIndexKey p.1))).filter
      (fun p => isArrayIndexKey p.1) =
      sortIdx (l.filter (fun p => isArrayIndexKey p.1)) := by
    apply List.filter_eq_self.mpr
    intro a ha
    exact (List.mem_filter.mp ((sortIdx_perm _).mem_iff.mp ha)).2
  have h2 : (l.filter (fun p => !(isArrayIndexKey p.1))).filter
      (fun p => isArrayIndexKey p.1) = [] := by
    apply List.filter_eq_nil_iff.mpr
    intro a ha
    have := (List.mem_filter.mp ha).2
    simp only [Bool.not_eq_true'] at this
    simp [this]
  have h3 : (sortIdx (l.filter (fun p => isArrayIndexKey p.1))).filter
      (fun p => !(isArrayIndexKey p.1)) = [] := by
    apply List.filter_eq_nil_iff.mpr
    intro a ha
    have := (List.mem_filter.mp ((sortIdx_perm _).mem_iff.mp ha)).2
    simp [this]
  have h4 : (l.filter (fun p => !(isArrayIndexKey p.1))).filter
      (fun p => !(isArrayIndexKey p.1)) =
      l.filter (fun p => !(isArrayIndexKey p.1)) :=
    List.filter_eq_self.mpr (fun a ha => (List.mem_filter.mp ha).2)
  rw [h1, h2, h3, h4, List.append_nil, List.nil_append, List.map_append]
  congr 1
  apply sortIdx_of_pairwise
  rw [List.pairwise_map]
  exact sortIdx_pairwise _

lemma jsEntries_pair_mixed {α : Type} (v1 v2 : α) :
    jsEntries [("zzzz", v1), ("2024", v2)] = [("2024", v2), ("zzzz", v1)] := by
  have h1 : isArrayIndexKey "zzzz" = false := by decide
  have h2 : isArrayIndexKey "2024" = true := by decide
  simp [jsEntries, List.filter_cons, h1, h2, sortIdx, insertIdx]

lemma jsEntries_pair_sorted {α : Type} (v1 v2 : α) :
    jsEntries [("2024", v1), ("zzzz", v2)] = [("2024", v1), ("zzzz", v2)] := by
  have h1 : isArrayIndexKey "zzzz" = false := by decide
  have h2 : isArrayIndexKey "2024" = true := by decide
  simp [jsEntries, List.filter_cons, h1, h2, sortIdx, insertIdx]

lemma sortDesc_pair_tie (k1 k2 : String) (q : ℚ) :
    sortDesc [(k1, q), (k2, q)] = [(k1, q), (k2, q)] := by
  simp [sortDesc, insertDesc, ge_iff_le, le_refl]

/-- C7 (counterexample): for the body text `zzzz 2024` the token `zzzz` is
seen first and both tokens tie at 50 percent density, so the claim's
first-seen tie order predicts suggestions `[zzzz, 2024]`; but `2024` is an
array-index property key, which `Object.entries` enumerates before the
insertion-ordered string keys, so the program's stable sort receives (and
keeps) `[2024, zzzz]`. -/
theorem claim_C7_counterexample :
    keywordTokens "zzzz 2024" = ["zzzz", "2024"] ∧
    (analyzeKeywords "zzzz 2024").density = [("2024", 50), ("zzzz", 50)] ∧
    (analyzeKeywords "zzzz 2024").suggestions = ["2024", "zzzz"] := by
  have htok : keywordTokens "zzzz 2024" = ["zzzz", "2024"] := by decide
  have hfold : List.foldl bumpCount [] ["zzzz", "2024"] =
      [("zzzz", 1), ("2024", 1)] := by decide
  refine ⟨htok, ?_, ?_⟩
  · show (jsEntries (List.foldl bumpCount [] (keywordTokens "zzzz 2024"))).map
        (fun p => (p.1, (p.2 : ℚ) /
          ((keywordTokens "zzzz 2024").length : ℚ) * 100)) =
      [("2024", 50), ("zzzz", 50)]
    rw [htok, hfold, jsEntries_pair_mixed]
    norm_num
  · show ((sortDesc (jsEntries ((jsEntries (List.foldl bumpCount []
          (keywordTokens "zzzz 2024"))).map
        (fun p => (p.1, (p.2 : ℚ) /
          ((keywordTokens "zzzz 2024").length : ℚ) * 100))))).take 15).map
      (fun p => p.1) = ["2024", "zzzz"]
    rw [htok, hfold, jsEntries_pair_mixed]
    simp only [List.map_cons, List.map_nil]
    rw [jsEntries_pair_sorted, sortDesc_pair_tie]
    simp

set_option maxHeartbeats 2000000 in
/-- C7 (amended): the keywords analysis equals the reference pipeline (first
5000 characters, lower-case, punctuation stripped, whitespace split, tokens
of length at most 3 discarded, frequencies as percentages of the qualifying
total, stable descending sort, top 15 / first 3 / items 4-10) with ties kept
in JavaScript object-entries order rather than plain first-seen order:
array-index keys (canonical digit tokens below 2^32 - 1) enumerate first in
ascending numeric order, followed by the remaining tokens in first-seen
order.  The sort is a genuine stable descending sort over that enumeration
(permutation, pairwise non-increasing, filtering by any fixed density
commutes with it), and the second `Object.entries` enumeration at the sort
site is the identity because the density object's keys were created in an
order already satisfying the numeric-first rule. -/
theorem claim_C7_keywords_pipeline (text : String) :
    analyzeKeywords text = keywordsRefEntries text ∧
    ((sortDesc (jsEntries ((analyzeKeywords text).density))).Pairwise
      (fun a b => b.2 ≤ a.2)) ∧
    (∀ q : ℚ, (sortDesc (jsEntries ((analyzeKeywords text).density))).filter
        (fun p => decide (p.2 = q)) =
      (jsEntries ((analyzeKeywords text).density)).filter
        (fun p => decide (p.2 = q))) ∧
    ((sortDesc (jsEntries ((analyzeKeywords text).density))).Perm
      (jsEntries ((analyzeKeywords text).density))) ∧
    jsEntries ((analyzeKeywords text).density) =
      (analyzeKeywords text).density ∧
    (analyzeKeywords text).suggestions =
      ((sortDesc (jsEntries ((analyzeKeywords text).density))).take 15).map
        (fun p => p.1) ∧
    (analyzeKeywords text).primary = (analyzeKeywords text).suggestions.take 3 ∧
    (analyzeKeywords text).secondary =
      ((analyzeKeywords text).suggestions.drop 3).take 7 := by
  have hA : analyzeKeywords text =
      { density := (jsEntries ((keywordTokens text).foldl bumpCount [])).map
          (fun p => (p.1, (p.2 : ℚ) / ((keywordTokens text).length : ℚ) * 100))
        suggestions := ((sortDesc (jsEntries
            ((jsEntries ((keywordTokens text).foldl bumpCount [])).map
              (fun p => (p.1, (p.2 : ℚ) /
                ((keywordTokens text).length : ℚ) * 100))))).take 15).map
          (fun p => p.1)
        primary := (((sortDesc (jsEntries
            ((jsEntries ((keywordTokens text).foldl bumpCount [])).map
              (fun p => (p.1, (p.2 : ℚ) /
                ((keywordTokens text).length : ℚ) * 100))))).take 15).map
          (fun p => p.1)).take 3
        secondary := ((((sortDesc (jsEntries
            ((jsEntries ((keywordTokens text).foldl bumpCount [])).map
              (fun p => (p.1, (p.2 : ℚ) /
                ((keywordTokens text).length : ℚ) * 100))))).take 15).map
          (fun p => p.1)).drop 3).take 7 } := rfl
  rw [hA]
  refine ⟨?_, sortDesc_pairwise _, fun q => sortDesc_filter _ q,
    sortDesc_perm _,
    jsEntries_entries_map ((keywordTokens text).foldl bumpCount [])
      (fun k c => (c : ℚ) / ((keywordTokens text).length : ℚ) * 100),
    rfl, rfl, rfl⟩
  simp only [keywordsRefEntries]
  rw [foldl_bumpCount, jsEntries_entries_map
    ((firstSeen (keywordTokens text)).map
      (fun w => (w, (keywordTokens text).count w)))
    (fun k c => (c : ℚ) / ((keywordTokens text).length : ℚ) * 100)]

/-- C10: on any body text whose processed token list is empty (no token
longer than 3 characters survives lower-casing and punctuation stripping —
in particular the empty string), the keywords analysis returns an empty
density map and empty suggestions/primary/secondary lists; no division by
the zero total is ever performed because the density loop ranges over the
empty frequency map, so the extractor is total. -/
theorem claim_C10_no_tokens (text : String) (h : keywordTokens text = []) :
    analyzeKeywords text =
      { density := [], suggestions := [], primary := [], secondary := [] } := by
  unfold analyzeKeywords
  rw [h]
  rfl

/-- C10 (witness): the concrete text `a bb zzz. dd!` has only tokens of
length at most 3, and its keywords analysis is empty. -/
theorem claim_C10_witness :
    keywordTokens "a bb zzz. dd!" = [] ∧
    analyzeKeywords "a bb zzz. dd!" =
      { density := [], suggestions := [], primary := [], secondary := [] } :=
  ⟨by decide, claim_C10_no_tokens "a bb zzz. dd!" (by decide)⟩

/-- analyzeContent (lines 351-366): word count over whitespace-split tokens
of the full body text, sentence count over `.!?`-split segments with
non-blank trimmed content, readability `clamp(100 - avg*2, 0, 100)` rounded;
`duplicateContent` is a `Math.random() > 0.9` draw and the detected language
is the constant `es`. -/
def analyzeContent (text : String) (rand : Rand) : ContentAnalysis :=
  let words := (splitRuns isJsSpace text.toList).filter
    (fun w => decide (w.length > 0))
  let sentences := (splitRuns isSentenceEnd text.toList).filter
    (fun s => decide ((jsTrim s).length > 0))
  let avgWordsPerSentence : ℚ :=
    if sentences.length > 0 then
      (words.length : ℚ) / (sentences.length : ℚ)
    else 0
  let readabilityScore : ℚ := max 0 (min 100 (100 - avgWordsPerSentence * 2))
  { wordCount := words.length
    readabilityScore := jsRound readabilityScore
    duplicateContent := decide (rand.contentDuplicate > 9 / 10)
    languageDetected := "es" }

/-- analyzeMobile (lines 368-375): `responsive` and `viewportMeta` are both
the existence of a viewport meta tag; `touchFriendly` is a
`Math.random() > 0.2` draw. -/
def analyzeMobile (viewportMeta : Bool) (rand : Rand) : MobileAnalysis :=
  { responsive := viewportMeta
    viewportMeta := viewportMeta
    touchFriendly := decide (rand.mobileTouch > 1 / 5) }

/-- analyzeSecurity (lines 398-403): `https` tests the URL scheme prefix and
`mixedContent` is a `Math.random() > 0.9` draw. -/
def analyzeSecurity (url : String) (rand : Rand) : SecurityAnalysis :=
  { https := strStarts url "https://"
    mixedContent := decide (rand.securityMixed > 9 / 10) }

/-- The parsed document: one field per DOM query the source performs
(DOMParser itself is the host platform's and is abstracted behind this
record).  `headingLevels` is the document-order level sequence matched by
`querySelectorAll('h1, h2, h3, h4, h5, h6')`; `h1`..`h6` are the per-level
text collections; the four `has*` booleans are the existence queries of
analyzeSocialMedia. -/
structure Doc where
  titleText : Option String
  metaDescription : Option String
  metaKeywords : Option String
  canonicalHref : Option String
  ogTitle : Option String
  ogDescription : Option String
  ogImage : Option String
  ogUrl : Option String
  ogType : Option String
  ogSiteName : Option String
  twCard : Option String
  twTitle : Option String
  twDescription : Option String
  twImage : Option String
  twSite : Option String
  ldScripts : List (Option LdObj)
  h1 : List String
  h2 : List String
  h3 : List String
  h4 : List String
  h5 : List String
  h6 : List String
  headingLevels : List ℕ
  imgs : List Img
  anchors : List Anchor
  bodyText : Option String
  viewportMeta : Bool
  robotsContent : Option String
  hasOgMeta : Bool
  hasTwitterMeta : Bool
  hasFacebookPixelScript : Bool
  hasAnalyticsScript : Bool
deriving DecidableEq

/-- extractOpenGraphData (lines 204-213). -/
def extractOpenGraphData (doc : Doc) : OpenGraphData :=
  { title := jsOrEmpty doc.ogTitle
    description := jsOrEmpty doc.ogDescription
    image := jsOrEmpty doc.ogImage
    url := jsOrEmpty doc.ogUrl
    ogType := jsOrEmpty doc.ogType
    siteName := jsOrEmpty doc.ogSiteName }

/-- extractTwitterCardData (lines 215-223). -/
def extractTwitterCardData (doc : Doc) : TwitterCardData :=
  { card := jsOrEmpty doc.twCard
    title := jsOrEmpty doc.twTitle
    description := jsOrEmpty doc.twDescription
    image := jsOrEmpty doc.twImage
    site := jsOrEmpty doc.twSite }

/-- extractHeadings (lines 248-257). -/
def extractHeadings (doc : Doc) : HeadingsStructure :=
  { h1 := doc.h1, h2 := doc.h2, h3 := doc.h3
    h4 := doc.h4, h5 := doc.h5, h6 := doc.h6 }

/-- analyzeSocialMedia (lines 405-412). -/
def analyzeSocialMedia (doc : Doc) : SocialMediaAnalysis :=
  { hasOpenGraph := doc.hasOgMeta
    hasTwitterCard := doc.hasTwitterMeta
    hasFacebookPixel := doc.hasFacebookPixelScript
    hasGoogleAnalytics := doc.hasAnalyticsScript }

/-- calculateDetailedScores (lines 437-490): five deduction ladders from 100,
floored at 0; the performance score is `Math.floor(Math.random()*20) + 80`. -/
def calculateDetailedScores (title metaDescription : String)
    (headings : HeadingsStructure) (images : ImagesAnalysis)
    (issues : TechnicalIssues) (content : ContentAnalysis)
    (links : LinksAnalysis) (mobile : MobileAnalysis)
    (accessibility : AccessibilityAnalysis)
    (socialMedia : SocialMediaAnalysis) (rand : Rand) : DetailedScores :=
  let technical : ℤ := 100 -
    (if issues.missingTitle then 25 else 0) -
    (if issues.missingMetaDescription then 20 else 0) -
    (if issues.duplicateH1 then 15 else 0) -
    (if issues.missingCanonical then 10 else 0) -
    (if issues.titleTooLong then 10 else 0) -
    (if issues.metaDescriptionTooLong then 10 else 0)
  let contentScore : ℤ := 100 -
    (if content.wordCount < 300 then 20 else 0) -
    (if content.readabilityScore < 60 then 15 else 0) -
    (if headings.h1.length = 0 then 20 else 0) -
    (if content.duplicateContent then 25 else 0)
  let performance : ℤ := Int.floor (rand.perfScore * 20) + 80
  let accessibilityScore : ℤ := 100 -
    (if !accessibility.headingStructure then 20 else 0) -
    (if !accessibility.colorContrast then 15 else 0) -
    (if images.withoutAlt > 0 then min ((images.withoutAlt : ℤ) * 5) 30 else 0) -
    (if !mobile.responsive then 25 else 0)
  let social : ℤ := 100 -
    (if !socialMedia.hasOpenGraph then 30 else 0) -
    (if !socialMedia.hasTwitterCard then 20 else 0) -
    (if !socialMedia.hasGoogleAnalytics then 15 else 0)
  { technical := max 0 technical
    content := max 0 contentScore
    performance := max 0 performance
    accessibility := max 0 accessibilityScore
    social := max 0 social }

/-- generateComprehensiveRecommendations (lines 492-533). -/
def generateComprehensiveRecommendations (issues : TechnicalIssues)
    (scores : DetailedScores) (keywords : KeywordsAnalysis)
    (content : ContentAnalysis) (images : ImagesAnalysis)
    (links : LinksAnalysis) : List String :=
  (if issues.missingTitle then
    ["🔴 CRÍTICO: Agregar un título único y descriptivo"] else []) ++
  (if issues.missingMetaDescription then
    ["🔴 CRÍTICO: Agregar meta descripción de 150-160 caracteres"] else []) ++
  (if issues.duplicateH1 then
    ["🟡 IMPORTANTE: Usar solo un H1 por página"] else []) ++
  (if issues.missingCanonical then
    ["🟡 IMPORTANTE: Agregar URL canónica"] else []) ++
  (if issues.titleTooLong then
    ["🟡 Acortar título a menos de 60 caracteres"] else []) ++
  (if issues.metaDescriptionTooLong then
    ["🟡 Acortar meta descripción"] else []) ++
  (if content.wordCount < 300 then
    ["📝 Aumentar contenido a mínimo 300 palabras"] else []) ++
  (if content.readabilityScore < 60 then
    ["📖 Mejorar legibilidad del contenido"] else []) ++
  (if content.duplicateContent then
    ["⚠️ Revisar contenido duplicado"] else []) ++
  (if images.withoutAlt > 0 then
    ["🖼️ Agregar texto alt a " ++ toString images.withoutAlt ++ " imágenes"]
   else []) ++
  (if images.oversized.length > 0 then
    ["🗜️ Optimizar tamaño de imágenes grandes"] else []) ++
  (if links.internal < 3 then
    ["🔗 Agregar más enlaces internos"] else []) ++
  (if links.external > links.internal * 2 then
    ["⚖️ Balancear enlaces internos vs externos"] else []) ++
  (if scores.performance < 70 then
    ["⚡ Mejorar velocidad de carga"] else []) ++
  (if scores.social < 70 then
    ["📱 Implementar Open Graph y Twitter Cards"] else []) ++
  (if scores.accessibility < 70 then
    ["♿ Mejorar accesibilidad web"] else [])

/-- interface SEOAnalysis (types/seo.ts), the assembled report. -/
structure SEOAnalysis where
  url : String
  title : String
  metaDescription : String
  metaKeywords : String
  canonicalUrl : String
  openGraph : OpenGraphData
  twitterCard : TwitterCardData
  structuredData : StructuredDataAnalysis
  headings : HeadingsStructure
  images : ImagesAnalysis
  links : LinksAnalysis
  performance : PerformanceMetrics
  mobile : MobileAnalysis
  security : SecurityAnalysis
  accessibility : AccessibilityAnalysis
  keywords : KeywordsAnalysis
  content : ContentAnalysis
  technicalIssues : TechnicalIssues
  socialMedia : SocialMediaAnalysis
  score : ℤ
  scores : DetailedScores
  recommendations : List String
deriving DecidableEq

/-- parseHTML (lines 123-202).  The source calls analyzeImages twice (once
standalone, once as the argument of analyzeAccessibility); with the draws
fixed by `rand` the two calls coincide here, and analyzeAccessibility reads
only the draw-independent `withAlt` field of its images argument.  The
report's `performance` block is the three random placeholders of lines
186-190. -/
def parseHTML (doc : Doc) (url : String) (rand : Rand) : SEOAnalysis :=
  let title := jsOrEmpty doc.titleText
  let metaDescription := jsOrEmpty doc.metaDescription
  let metaKeywords := jsOrEmpty doc.metaKeywords
  let canonicalUrl := jsOrEmpty doc.canonicalHref
  let openGraph := extractOpenGraphData doc
  let twitterCard := extractTwitterCardData doc
  let structuredData := extractStructuredData doc.ldScripts
  let headings := extractHeadings doc
  let images := analyzeImages doc.imgs rand
  let links := analyzeLinks doc.anchors url rand
  let keywords := analyzeKeywords (jsOrEmpty doc.bodyText)
  let content := analyzeContent (jsOrEmpty doc.bodyText) rand
  let mobile := analyzeMobile doc.viewportMeta rand
  let accessibility := analyzeAccessibility doc.headingLevels
    (analyzeImages doc.imgs rand) rand
  let security := analyzeSecurity url rand
  let socialMedia := analyzeSocialMedia doc
  let technicalIssues := checkTechnicalIssues doc.robotsContent title
    metaDescription headings images canonicalUrl
  let scores := calculateDetailedScores title metaDescription headings images
    technicalIssues content links mobile accessibility socialMedia rand
  let score := jsRound (((scores.technical : ℚ) + (scores.content : ℚ) +
    (scores.performance : ℚ) + (scores.accessibility : ℚ) +
    (scores.social : ℚ)) / 5)
  let recommendations := generateComprehensiveRecommendations technicalIssues
    scores keywords content images links
  { url := url
    title := title
    metaDescription := metaDescription
    metaKeywords := metaKeywords
    canonicalUrl := canonicalUrl
    openGraph := openGraph
    twitterCard := twitterCard
    structuredData := structuredData
    headings := headings
    images := images
    links := links
    performance :=
      { loadTime := rand.perfLoadTime * 2 + 1 / 2
        pageSize := rand.perfPageSize * 1500 + 300
        requests := Int.floor (rand.perfRequests * 30) + 15 }
    mobile := mobile
    security := security
    accessibility := accessibility
    keywords := keywords
    content := content
    technicalIssues := technicalIssues
    socialMedia := socialMedia
    score := score
    scores := scores
    recommendations := recommendations }

/-- getComprehensiveSampleAnalysis (lines 535-660): the fixed demo report
returned whenever the fetch-and-parse try block throws. -/
def getComprehensiveSampleAnalysis (url : String) : SEOAnalysis :=
  { url := url
    title := "Guía Completa de SEO 2024 - Estrategias y Técnicas Avanzadas"
    metaDescription := "Descubre las mejores estrategias SEO para 2024. Guía completa con técnicas avanzadas, herramientas y consejos para posicionar tu sitio web."
    metaKeywords := "SEO, posicionamiento web, marketing digital, Google, optimización"
    canonicalUrl := url
    openGraph :=
      { title := "Guía Completa de SEO 2024"
        description := "Las mejores estrategias SEO para dominar Google"
        image := "https://ejemplo.com/seo-guide.jpg"
        url := url
        ogType := "article"
        siteName := "SEO Masters" }
    twitterCard :=
      { card := "summary_large_image"
        title := "Guía SEO 2024"
        description := "Estrategias avanzadas de posicionamiento"
        image := "https://ejemplo.com/seo-guide.jpg"
        site := "@seoexperts" }
    structuredData :=
      { hasSchema := true
        types := ["Article", "BreadcrumbList", "Organization"]
        errors := [] }
    headings :=
      { h1 := ["Guía Completa de SEO 2024"]
        h2 := ["Fundamentos del SEO", "SEO Técnico",
          "Contenido y Palabras Clave", "Link Building"]
        h3 := ["Optimización On-Page", "Velocidad de Carga", "Mobile First",
          "Core Web Vitals"]
        h4 := ["Meta Tags", "Estructura URL", "Sitemap XML"]
        h5 := []
        h6 := [] }
    images :=
      { total := 12
        withAlt := 10
        withoutAlt := 2
        missingAlt := ["chart-keywords.png", "diagram-seo.jpg"]
        oversized := ["hero-banner.jpg"]
        totalSize := 1840 }
    links :=
      { internal := 25
        external := 8
        broken := 0
        nofollow := 3
        dofollow := 30 }
    performance :=
      { loadTime := 6 / 5
        pageSize := 1250
        requests := 28 }
    mobile :=
      { responsive := true
        viewportMeta := true
        touchFriendly := true }
    security :=
      { https := true
        mixedContent := false }
    accessibility :=
      { altImages := 10
        headingStructure := true
        colorContrast := true }
    keywords :=
      { density :=
          [("seo", 16 / 5), ("posicionamiento", 14 / 5), ("google", 21 / 10),
            ("contenido", 19 / 10), ("palabras", 17 / 10), ("clave", 3 / 2),
            ("optimización", 13 / 10), ("técnico", 11 / 10),
            ("estrategias", 9 / 10), ("marketing", 4 / 5)]
        suggestions := ["seo", "posicionamiento", "google", "contenido",
          "palabras"]
        primary := ["seo", "posicionamiento", "google"]
        secondary := ["contenido", "palabras", "clave", "optimización"] }
    content :=
      { wordCount := 2450
        readabilityScore := 78
        duplicateContent := false
        languageDetected := "es" }
    technicalIssues :=
      { missingTitle := false
        missingMetaDescription := false
        duplicateH1 := false
        imagesMissingAlt := true
        titleTooLong := false
        metaDescriptionTooLong := false
        missingCanonical := false
        noIndex := false
        noFollow := false }
    socialMedia :=
      { hasOpenGraph := true
        hasTwitterCard := true
        hasFacebookPixel := true
        hasGoogleAnalytics := true }
    score := 91
    scores :=
      { technical := 88
        content := 94
        performance := 85
        accessibility := 92
        social := 96 }
    recommendations :=
      ["🖼️ Agregar texto alt a 2 imágenes faltantes",
        "⚡ Excelente velocidad de carga (1.2s)",
        "📈 Contenido bien estructurado y optimizado",
        "🎯 Densidad de palabras clave óptima",
        "✅ Sitio web muy bien optimizado para SEO"] }

/-- analyzePage (lines 90-121) with the try block's outcome made explicit:
`some doc` is a successful fetch-and-parse of the page's HTML, `none` is any
throw inside the try (timeout abort, transport failure, JSON error), which
the source catches and answers with the comprehensive sample analysis.  The
URL-keyed cache is orthogonal state and not modelled. -/
def analyzePage (outcome : Option Doc) (url : String) (rand : Rand) :
    SEOAnalysis :=
  match outcome with
  | some doc => parseHTML doc url rand
  | none => getComprehensiveSampleAnalysis url

/-- The empty document: every query misses. -/
def doc0 : Doc :=
  { titleText := none
    metaDescription := none
    metaKeywords := none
    canonicalHref := none
    ogTitle := none
    ogDescription := none
    ogImage := none
    ogUrl := none
    ogType := none
    ogSiteName := none
    twCard := none
    twTitle := none
    twDescription := none
    twImage := none
    twSite := none
    ldScripts := []
    h1 := []
    h2 := []
    h3 := []
    h4 := []
    h5 := []
    h6 := []
    headingLevels := []
    imgs := []
    anchors := []
    bodyText := none
    viewportMeta := false
    robotsContent := none
    hasOgMeta := false
    hasTwitterMeta := false
    hasFacebookPixelScript := false
    hasAnalyticsScript := false }

/-- The all-zero draw record with only the performance-score draw raised to
19/20 (so `Math.floor(0.95 * 20) = 19`). -/
def randP : Rand := { rand0 with perfScore := 19 / 20 }

lemma jsRound_eq_round (q : ℚ) : jsRound q = round q := by
  rw [round_eq]
  rfl

lemma calculateDetailedScores_bounds (title metaDescription : String)
    (headings : HeadingsStructure) (images : ImagesAnalysis)
    (issues : TechnicalIssues) (content : ContentAnalysis)
    (links : LinksAnalysis) (mobile : MobileAnalysis)
    (accessibility : AccessibilityAnalysis)
    (socialMedia : SocialMediaAnalysis) (rand : Rand)
    (h0 : 0 ≤ rand.perfScore) (h1 : rand.perfScore < 1) :
    let s := calculateDetailedScores title metaDescription headings images
      issues content links mobile accessibility socialMedia rand
    (0 ≤ s.technical ∧ s.technical ≤ 100) ∧
    (0 ≤ s.content ∧ s.content ≤ 100) ∧
    (0 ≤ s.performance ∧ s.performance ≤ 100) ∧
    (0 ≤ s.accessibility ∧ s.accessibility ≤ 100) ∧
    (0 ≤ s.social ∧ s.social ≤ 100) := by
  intro s
  have hs : s = calculateDetailedScores title metaDescription headings images
      issues content links mobile accessibility socialMedia rand := rfl
  rw [hs]
  simp only [calculateDetailedScores]
  refine ⟨⟨le_max_left 0 _, ?_⟩, ⟨le_max_left 0 _, ?_⟩,
    ⟨le_max_left 0 _, ?_⟩, ⟨le_max_left 0 _, ?_⟩, ⟨le_max_left 0 _, ?_⟩⟩
  · refine max_le (by norm_num) ?_
    have i1 : (0:ℤ) ≤ if issues.missingTitle then 25 else 0 := by
      split <;> norm_num
    have i2 : (0:ℤ) ≤ if issues.missingMetaDescription then 20 else 0 := by
      split <;> norm_num
    have i3 : (0:ℤ) ≤ if issues.duplicateH1 then 15 else 0 := by
      split <;> norm_num
    have i4 : (0:ℤ) ≤ if issues.missingCanonical then 10 else 0 := by
      split <;> norm_num
    have i5 : (0:ℤ) ≤ if issues.titleTooLong then 10 else 0 := by
      split <;> norm_num
    have i6 : (0:ℤ) ≤ if issues.metaDescriptionTooLong then 10 else 0 := by
      split <;> norm_num
    linarith
  · refine max_le (by norm_num) ?_
    have i1 : (0:ℤ) ≤ if content.wordCount < 300 then 20 else 0 := by
      split <;> norm_num
    have i2 : (0:ℤ) ≤ if content.readabilityScore < 60 then 15 else 0 := by
      split <;> norm_num
    have i3 : (0:ℤ) ≤ if headings.h1.length = 0 then 20 else 0 := by
      split <;> norm_num
    have i4 : (0:ℤ) ≤ if content.duplicateContent then 25 else 0 := by
      split <;> norm_num
    linarith
  · refine max_le (by norm_num) ?_
    have h20 : rand.perfScore * 20 < ((20 : ℤ) : ℚ) := by
      push_cast
      nlinarith
    have hf : Int.floor (rand.perfScore * 20) < 20 := Int.floor_lt.mpr h20
    linarith
  · refine max_le (by norm_num) ?_
    have i1 : (0:ℤ) ≤ if !accessibility.headingStructure then 20 else 0 := by
      split <;> norm_num
    have i2 : (0:ℤ) ≤ if !accessibility.colorContrast then 15 else 0 := by
      split <;> norm_num
    have i3 : (0:ℤ) ≤ if images.withoutAlt > 0 then
        min ((images.withoutAlt : ℤ) * 5) 30 else 0 := by
      split
      · exact le_min (by positivity) (by norm_num)
      · exact le_refl 0
    have i4 : (0:ℤ) ≤ if !mobile.responsive then 25 else 0 := by
      split <;> norm_num
    linarith
  · refine max_le (by norm_num) ?_
    have i1 : (0:ℤ) ≤ if !socialMedia.hasOpenGraph then 30 else 0 := by
      split <;> norm_num
    have i2 : (0:ℤ) ≤ if !socialMedia.hasTwitterCard then 20 else 0 := by
      split <;> norm_num
    have i3 : (0:ℤ) ≤ if !socialMedia.hasGoogleAnalytics then 15 else 0 := by
      split <;> norm_num
    linarith

/-- C1: on every analyzed document, each of the five sub-scores lies in
[0, 100] (each is a deduction ladder from 100 floored at 0, and the random
performance score `Math.floor(draw*20) + 80` stays at most 99 for any draw
in [0, 1)), and the report's overall score equals the rounded arithmetic mean
of the five sub-scores (`Math.round` agrees with `round` on these values). -/
theorem claim_C1_scores_range_and_mean (doc : Doc) (url : String) (rand : Rand)
    (h0 : 0 ≤ rand.perfScore) (h1 : rand.perfScore < 1) :
    (0 ≤ (parseHTML doc url rand).scores.technical ∧
      (parseHTML doc url rand).scores.technical ≤ 100) ∧
    (0 ≤ (parseHTML doc url rand).scores.content ∧
      (parseHTML doc url rand).scores.content ≤ 100) ∧
    (0 ≤ (parseHTML doc url rand).scores.performance ∧
      (parseHTML doc url rand).scores.performance ≤ 100) ∧
    (0 ≤ (parseHTML doc url rand).scores.accessibility ∧
      (parseHTML doc url rand).scores.accessibility ≤ 100) ∧
    (0 ≤ (parseHTML doc url rand).scores.social ∧
      (parseHTML doc url rand).scores.social ≤ 100) ∧
    (parseHTML doc url rand).score =
      round ((((parseHTML doc url rand).scores.technical : ℚ) +
        ((parseHTML doc url rand).scores.content : ℚ) +
        ((parseHTML doc url rand).scores.performance : ℚ) +
        ((parseHTML doc url rand).scores.accessibility : ℚ) +
        ((parseHTML doc url rand).scores.social : ℚ)) / 5) := by
  have hb := calculateDetailedScores_bounds (jsOrEmpty doc.titleText)
    (jsOrEmpty doc.metaDescription) (extractHeadings doc)
    (analyzeImages doc.imgs rand)
    (checkTechnicalIssues doc.robotsContent (jsOrEmpty doc.titleText)
      (jsOrEmpty doc.metaDescription) (extractHeadings doc)
      (analyzeImages doc.imgs rand) (jsOrEmpty doc.canonicalHref))
    (analyzeContent (jsOrEmpty doc.bodyText) rand)
    (analyzeLinks doc.anchors url rand) (analyzeMobile doc.viewportMeta rand)
    (analyzeAccessibility doc.headingLevels (analyzeImages doc.imgs rand) rand)
    (analyzeSocialMedia doc) rand h0 h1
  exact ⟨hb.1, hb.2.1, hb.2.2.1, hb.2.2.2.1, hb.2.2.2.2, jsRound_eq_round _⟩

/-- C1 (witness): the claim instantiated on the empty document, the URL
`https://example.com` and the all-zero draw record. -/
theorem claim_C1_witness :
    (0 ≤ rand0.perfScore ∧ rand0.perfScore < 1) ∧
    ((0 ≤ (parseHTML doc0 "https://example.com" rand0).scores.technical ∧
      (parseHTML doc0 "https://example.com" rand0).scores.technical ≤ 100) ∧
    (0 ≤ (parseHTML doc0 "https://example.com" rand0).scores.content ∧
      (parseHTML doc0 "https://example.com" rand0).scores.content ≤ 100) ∧
    (0 ≤ (parseHTML doc0 "https://example.com" rand0).scores.performance ∧
      (parseHTML doc0 "https://example.com" rand0).scores.performance ≤ 100) ∧
    (0 ≤ (parseHTML doc0 "https://example.com" rand0).scores.accessibility ∧
      (parseHTML doc0 "https://example.com" rand0).scores.accessibility ≤ 100) ∧
    (0 ≤ (parseHTML doc0 "https://example.com" rand0).scores.social ∧
      (parseHTML doc0 "https://example.com" rand0).scores.social ≤ 100) ∧
    (parseHTML doc0 "https://example.com" rand0).score =
      round ((((parseHTML doc0 "https://example.com" rand0).scores.technical : ℚ) +
        ((parseHTML doc0 "https://example.com" rand0).scores.content : ℚ) +
        ((parseHTML doc0 "https://example.com" rand0).scores.performance : ℚ) +
        ((parseHTML doc0 "https://example.com" rand0).scores.accessibility : ℚ) +
        ((parseHTML doc0 "https://example.com" rand0).scores.social : ℚ)) / 5)) :=
  ⟨⟨by decide, by decide⟩,
    claim_C1_scores_range_and_mean doc0 "https://example.com" rand0
      (by decide) (by decide)⟩

/-- C3 (counterexample): two runs of the pipeline on the same empty document
and URL with two different (both legitimate) `Math.random` draw records give
different DetailedScores — the performance sub-score is 80 for the all-zero
draws and 99 when the performance draw is 0.95 — so the extraction pipeline
is not idempotent across runs and DetailedScores contains a non-deterministic
field. -/
theorem claim_C3_counterexample :
    (parseHTML doc0 "https://example.com" rand0).scores.performance ≠
      (parseHTML doc0 "https://example.com" randP).scores.performance := by
  have e1 : (parseHTML doc0 "https://example.com" rand0).scores.performance =
      80 := by
    show max 0 ((⌊((0 : ℚ) * 20)⌋ : ℤ) + 80) = 80
    rw [zero_mul, Int.floor_zero]
    simp [max_def]
  have e2 : (parseHTML doc0 "https://example.com" randP).scores.performance =
      99 := by
    show max 0 ((⌊((19 / 20 : ℚ) * 20)⌋ : ℤ) + 80) = 99
    have h19 : ((19 / 20 : ℚ) * 20) = ((19 : ℤ) : ℚ) := by norm_num
    rw [h19, Int.floor_intCast]
    simp [max_def]
  rw [e1, e2]
  decide

/-- C3 (amended): with every `Math.random()` call site modelled as an
explicit input, the pipeline is a pure function of (document, URL, draws);
for a fixed document and URL, all of TechnicalIssues, the technical and
social sub-scores, and every draw-free PageFacts facet (title, meta fields,
open graph, twitter card, structured data, headings, keyword analysis, image
counts and missing-alt list, link classification counts, word count,
readability, social-media flags, https flag, viewport flags, alt-image count
and heading-structure flag) coincide across runs with different draws; the
remaining facets (performance numbers, oversized/totalSize, broken,
duplicateContent, touchFriendly, colorContrast, mixedContent — and through
them the content, performance and accessibility sub-scores and the overall
score) are random placeholders rather than stable values. -/
theorem claim_C3_determinism_modulo_draws (doc : Doc) (url : String)
    (r1 r2 : Rand) :
    (parseHTML doc url r1).technicalIssues =
      (parseHTML doc url r2).technicalIssues ∧
    (parseHTML doc url r1).scores.technical =
      (parseHTML doc url r2).scores.technical ∧
    (parseHTML doc url r1).scores.social =
      (parseHTML doc url r2).scores.social ∧
    (parseHTML doc url r1).title = (parseHTML doc url r2).title ∧
    (parseHTML doc url r1).metaDescription =
      (parseHTML doc url r2).metaDescription ∧
    (parseHTML doc url r1).metaKeywords =
      (parseHTML doc url r2).metaKeywords ∧
    (parseHTML doc url r1).canonicalUrl =
      (parseHTML doc url r2).canonicalUrl ∧
    (parseHTML doc url r1).openGraph = (parseHTML doc url r2).openGraph ∧
    (parseHTML doc url r1).twitterCard = (parseHTML doc url r2).twitterCard ∧
    (parseHTML doc url r1).structuredData =
      (parseHTML doc url r2).structuredData ∧
    (parseHTML doc url r1).headings = (parseHTML doc url r2).headings ∧
    (parseHTML doc url r1).keywords = (parseHTML doc url r2).keywords ∧
    (parseHTML doc url r1).socialMedia = (parseHTML doc url r2).socialMedia ∧
    (parseHTML doc url r1).security.https =
      (parseHTML doc url r2).security.https ∧
    (parseHTML doc url r1).mobile.responsive =
      (parseHTML doc url r2).mobile.responsive ∧
    (parseHTML doc url r1).mobile.viewportMeta =
      (parseHTML doc url r2).mobile.viewportMeta ∧
    (parseHTML doc url r1).images.total = (parseHTML doc url r2).images.total ∧
    (parseHTML doc url r1).images.withAlt =
      (parseHTML doc url r2).images.withAlt ∧
    (parseHTML doc url r1).images.withoutAlt =
      (parseHTML doc url r2).images.withoutAlt ∧
    (parseHTML doc url r1).images.missingAlt =
      (parseHTML doc url r2).images.missingAlt ∧
    (parseHTML doc url r1).links.internal =
      (parseHTML doc url r2).links.internal ∧
    (parseHTML doc url r1).links.external =
      (parseHTML doc url r2).links.external ∧
    (parseHTML doc url r1).links.nofollow =
      (parseHTML doc url r2).links.nofollow ∧
    (parseHTML doc url r1).links.dofollow =
      (parseHTML doc url r2).links.dofollow ∧
    (parseHTML doc url r1).content.wordCount =
      (parseHTML doc url r2).content.wordCount ∧
    (parseHTML doc url r1).content.readabilityScore =
      (parseHTML doc url r2).content.readabilityScore ∧
    (parseHTML doc url r1).accessibility.altImages =
      (parseHTML doc url r2).accessibility.altImages ∧
    (parseHTML doc url r1).accessibility.headingStructure =
      (parseHTML doc url r2).accessibility.headingStructure :=
  ⟨rfl, rfl, rfl, rfl, rfl, rfl, rfl, rfl, rfl, rfl, rfl, rfl, rfl, rfl,
    rfl, rfl, rfl, rfl, rfl, rfl, rfl, rfl, rfl, rfl, rfl, rfl, rfl, rfl⟩

/-- C4 (counterexample): when the HTML for `https://fallo.example` cannot be
retrieved (the try block throws), analyzePage does not propagate any error
and does not return a marked placeholder: it returns the comprehensive
sample analysis — a success-shaped report with overall score 91, a non-empty
fixed title unrelated to the URL, schema claimed present with no errors and
no missing-title issue — indistinguishable in type and content from a
genuine successful analysis. -/
theorem claim_C4_counterexample :
    analyzePage none "https://fallo.example" rand0 =
      getComprehensiveSampleAnalysis "https://fallo.example" ∧
    (analyzePage none "https://fallo.example" rand0).score = 91 ∧
    (analyzePage none "https://fallo.example" rand0).title ≠ "" ∧
    (analyzePage none "https://fallo.example" rand0).structuredData.hasSchema =
      true ∧
    (analyzePage none "https://fallo.example" rand0).structuredData.errors =
      [] ∧
    (analyzePage none "https://fallo.example" rand0).technicalIssues.missingTitle =
      false :=
  ⟨rfl, rfl, by decide, rfl, rfl, rfl⟩

/-- C4 (amended): on any fetch failure (timeout, transport failure, or any
other throw inside the try block), analyzePage catches the error and returns
the fixed fabricated sample analysis for the requested URL — with overall
score 91 and independent of which failure occurred — instead of propagating
a typed fetch error or returning a distinguishable placeholder. -/
theorem claim_C4_fallback_masks_failure (url : String) (rand : Rand) :
    analyzePage none url rand = getComprehensiveSampleAnalysis url ∧
    (analyzePage none url rand).score = 91 ∧
    (analyzePage none url rand).url = url :=
  ⟨rfl, rfl, rfl⟩

end SeoUtils
